import Mathlib

/-!
# Verification of the email-validation engine

A shallow embedding of the address-validation engine in
`email_validator.py` (class `EmailValidator`), together with proofs of the
specified properties.

Modelling conventions:

* Python strings are modelled as Lean `String`s (a `String` here is a
  wrapper around `List Char`, matching Python's view of a string as a
  sequence of code points); the string helpers `strip`, `lower`,
  `split('@')` and `rstrip('.')` are embedded as executable functions on
  the underlying character lists.  Case folding is modelled for the ASCII
  range, which is the range the validator's syntax pattern accepts.
* The DNS resolver (`dns.resolver.resolve`) is an external effect and is
  modelled as an oracle `resolve : Option Nat → String → Except String (List MxRdata)`;
  the first argument is the lifetime/timeout argument of the call
  (`none` = not passed, library default applies), and an `Except.error`
  result models the call raising an exception.
* A complete SMTP probe of one host (`smtplib` session) is an external
  effect summarised by a `HostEvent` oracle: each constructor corresponds
  to one of the exception classes handled in `validate_smtp`, and
  `session mailCode rcptCode rcptMessage` describes a conversation that
  completed the MAIL command with reply `mailCode` and (when
  `mailCode = 250`) the RCPT command with reply `(rcptCode, rcptMessage)`.
* The thread pool of `validate_emails_batch` is modelled by an explicit
  completion order: a list of indices (a permutation of the submission
  indices) in which the futures are observed by `as_completed`.
-/

namespace EmailValidation

/-! ## Python string primitives -/

/-- The ASCII whitespace characters removed by Python's `str.strip()`. -/
def isPySpace (c : Char) : Bool :=
  c == ' ' || c == '\t' || c == '\n' || c == '\r' || c == '\x0b' || c == '\x0c'

/-- Strip a predicate from both ends of a list (the character-list core of
Python's `str.strip()`). -/
def stripList (p : α → Bool) (l : List α) : List α :=
  ((l.dropWhile p).reverse.dropWhile p).reverse

/-- Python's `str.strip()` (ASCII whitespace). -/
def pyStrip (s : String) : String :=
  String.mk (stripList isPySpace s.data)

/-- ASCII case folding of one character, as performed by `str.lower()` on
the ASCII range. -/
def pyLowerChar : Char → Char
  | 'A' => 'a'
  | 'B' => 'b'
  | 'C' => 'c'
  | 'D' => 'd'
  | 'E' => 'e'
  | 'F' => 'f'
  | 'G' => 'g'
  | 'H' => 'h'
  | 'I' => 'i'
  | 'J' => 'j'
  | 'K' => 'k'
  | 'L' => 'l'
  | 'M' => 'm'
  | 'N' => 'n'
  | 'O' => 'o'
  | 'P' => 'p'
  | 'Q' => 'q'
  | 'R' => 'r'
  | 'S' => 's'
  | 'T' => 't'
  | 'U' => 'u'
  | 'V' => 'v'
  | 'W' => 'w'
  | 'X' => 'x'
  | 'Y' => 'y'
  | 'Z' => 'z'
  | c => c

/-- Python's `str.lower()` (ASCII range). -/
def pyLower (s : String) : String :=
  String.mk (s.data.map pyLowerChar)

/-- Auxiliary for `pySplit`: returns the first chunk and the remaining
chunks of the split. -/
def pySplitAux (sep : Char) : List Char → List Char × List (List Char)
  | [] => ([], [])
  | c :: cs =>
    let r := pySplitAux sep cs
    if c = sep then ([], r.1 :: r.2) else (c :: r.1, r.2)

/-- Python's `str.split(sep)` for a one-character separator: the list of
chunks between occurrences of `sep` (always nonempty; `"".split(sep) = [""]`,
`"a@".split("@") = ["a", ""]`). -/
def pySplit (sep : Char) (l : List Char) : List (List Char) :=
  (pySplitAux sep l).1 :: (pySplitAux sep l).2

/-- Python's `str.rstrip('.')`: remove every trailing `'.'`. -/
def pyRstripDot (s : String) : String :=
  String.mk (s.data.reverse.dropWhile (· == '.')).reverse

/-! ## Syntax check (`EmailValidator.is_valid_email_syntax`)

The pattern `^[a-zA-Z0-9._%+-]+@[a-zA-Z0-9.-]+\.[a-zA-Z]{2,}$` is embedded
as an executable matcher: a string matches iff it is
`local ++ "@" ++ pre ++ "." ++ tld` with `local` a nonempty run of
local-part characters, `pre` a nonempty run of domain characters and `tld`
at least two alphabetic characters.  Since the final alphabetic run must
extend to the end of the string, the only possible position for the last
literal dot is just before the maximal trailing alphabetic run, which the
matcher checks directly.  (`Char.isAlpha`/`Char.isDigit` are the ASCII
classes, matching the pattern's character ranges.) -/

/-- Characters allowed by the pattern in the local part: `[a-zA-Z0-9._%+-]`. -/
def localChar (c : Char) : Bool :=
  c.isAlphanum || c == '.' || c == '_' || c == '%' || c == '+' || c == '-'

/-- Characters allowed by the pattern before the final dot: `[a-zA-Z0-9.-]`. -/
def domainChar (c : Char) : Bool :=
  c.isAlphanum || c == '.' || c == '-'

/-- Does the domain side match `[a-zA-Z0-9.-]+\.[a-zA-Z]{2,}$`? -/
def domainPartOk (d : List Char) : Bool :=
  let r := d.reverse
  let tld := r.takeWhile Char.isAlpha
  let rest := r.dropWhile Char.isAlpha
  decide (2 ≤ tld.length) &&
    (match rest with
     | '.' :: pre => !pre.isEmpty && pre.all domainChar
     | _ => false)

/-- `EmailValidator.is_valid_email_syntax` (line 17): strip the argument
and match it against the compiled pattern.  The pattern contains exactly
one literal `@` and neither character class contains `@`, so a match
requires the split on `@` to have exactly two chunks. -/
def is_valid_email_syntax (email : String) : Bool :=
  match pySplit '@' (pyStrip email).data with
  | [l, d] => !l.isEmpty && l.all localChar && domainPartOk d
  | _ => false

/-! ## MX resolution (`EmailValidator.get_mx_records`) -/

/-- One MX answer record as handed back by the resolver: a preference
value and an exchange hostname (possibly with a trailing dot). -/
structure MxRdata where
  preference : Nat
  exchange : String
  deriving DecidableEq, Repr

/-- `EmailValidator.get_mx_records` (lines 21-27).  The source calls
`dns.resolver.resolve(domain, 'MX')` with no lifetime argument — hence
`resolve none domain`; the validator's configured `timeout` is in scope
(`self.timeout`) but is not passed to the call.  Every exception from the
resolver is absorbed into the empty list (the `except` clause ends with
the catch-all `Exception`).  On success each record's exchange is
stringified and its trailing dot stripped, preserving the resolver's
order. -/
def get_mx_records (resolve : Option Nat → String → Except String (List MxRdata))
    (timeout : Nat) (domain : String) : List String :=
  match resolve none domain with
  | .ok recs => recs.map (fun r => pyRstripDot r.exchange)
  | .error _ => []

/-! ## The SMTP probe (`EmailValidator.validate_smtp`) -/

/-- The observable outcome of probing one MX host for a fixed email, i.e.
of executing the `try` block of `validate_smtp` on that host:

* `connectError`, `timeoutError`, `recipientsRefused`,
  `serverDisconnected` — the corresponding `smtplib` exception is raised
  somewhere in the block;
* `otherException` — any other exception is raised (the final
  `except Exception` handler);
* `session mailCode rcptCode rcptMessage` — the MAIL command completes
  with reply code `mailCode`; when `mailCode = 250` the RCPT command then
  completes with reply `(rcptCode, rcptMessage)` (otherwise the RCPT
  fields are not consulted). -/
inductive HostEvent where
  | connectError
  | timeoutError
  | recipientsRefused
  | serverDisconnected
  | otherException
  | session (mailCode : Nat) (rcptCode : Nat) (rcptMessage : String)
  deriving DecidableEq, Repr

/-- The `for mx_server in mx_servers[:3]` loop of `validate_smtp`
(lines 34-74), applied to an already-truncated host list; the `[]` case is
the `return` after the loop.  `net` gives each host's `HostEvent` for the
probed email. -/
def smtpLoop (net : String → HostEvent) (email : String) : List String → Bool × String
  | [] => (false, "Could not connect to any MX server")
  | mxServer :: rest =>
    match net mxServer with
    | .session mailCode rcptCode rcptMessage =>
      if mailCode ≠ 250 then smtpLoop net email rest
      else if rcptCode = 250 then (true, "SMTP validation successful")
      else if rcptCode = 550 then (false, "Mailbox not found")
      else if rcptCode = 553 then (false, "Invalid email format")
      else (false, "SMTP error: " ++ toString rcptCode ++ " " ++ rcptMessage)
    | .recipientsRefused => (false, "Email rejected by server")
    | .connectError => smtpLoop net email rest
    | .timeoutError => smtpLoop net email rest
    | .serverDisconnected => smtpLoop net email rest
    | .otherException => smtpLoop net email rest

/-- `EmailValidator.validate_smtp` (lines 29-74): guard the empty list,
then run the loop over at most the first 3 MX servers. -/
def validate_smtp (net : String → HostEvent) (email : String)
    (mx_servers : List String) : Bool × String :=
  if mx_servers.isEmpty then (false, "No MX records found")
  else smtpLoop net email (mx_servers.take 3)

/-- Host events on which the loop advances to the next host: the four
`continue` exception handlers, and a completed MAIL command with a
non-250 reply (`if code != 250: server.quit(); continue`). -/
def isContinue : HostEvent → Bool
  | .connectError => true
  | .timeoutError => true
  | .serverDisconnected => true
  | .otherException => true
  | .session mailCode _ _ => mailCode != 250
  | .recipientsRefused => false

/-- Transport-level failures: the four exception classes whose handlers
`continue` to the next host. -/
def isTransportFailure : HostEvent → Bool
  | .connectError => true
  | .timeoutError => true
  | .serverDisconnected => true
  | .otherException => true
  | .recipientsRefused => false
  | .session _ _ _ => false

/-! ## Single-email validation (`EmailValidator.validate_single_email`) -/

/-- The 4-tuple `(email, domain, status, reason)` returned for each
candidate. -/
structure Outcome where
  email : String
  domain : String
  status : String
  reason : String
  deriving DecidableEq, Repr

/-- The body of `validate_single_email` (lines 80-106) applied to the
already-normalized email.  `email.split('@')[1]` raising `IndexError` is
the `none` case of indexing the split.  The `except Exception` branch of
lines 105-106 is unreachable in this embedding because the two oracles
(`mx` for `get_mx_records`, `net` for the SMTP session) are total
functions: `get_mx_records` never raises and `validate_smtp` absorbs
every session exception. -/
def classifyNormalized (mx : String → List String) (net : String → HostEvent)
    (email : String) : Outcome :=
  match (pySplit '@' email.data).get? 1 with
  | none => ⟨email, "", "Invalid", "Invalid email format"⟩
  | some d =>
    let domain := String.mk d
    if ! is_valid_email_syntax email then
      ⟨email, domain, "Invalid", "Invalid email syntax"⟩
    else
      let mx_records := mx domain
      if mx_records.isEmpty then
        ⟨email, domain, "Invalid", "No MX records found"⟩
      else
        match validate_smtp net email mx_records with
        | (true, _) => ⟨email, domain, "Valid", ""⟩
        | (false, errorMessage) => ⟨email, domain, "Invalid", errorMessage⟩

/-- `EmailValidator.validate_single_email` (lines 76-106):
`email = email.strip().lower()`, then classify. -/
def validate_single_email (mx : String → List String) (net : String → HostEvent)
    (email : String) : Outcome :=
  classifyNormalized mx net (pyLower (pyStrip email))

/-! ## Batch validation (`EmailValidator.validate_emails_batch`) -/

/-- The per-future consumption step of `validate_emails_batch`
(lines 118-125): `future.result()` either returns the worker's outcome or
re-raises the worker's exception (`Except.error e`, `e` the exception
text), which the task-boundary handler converts to an `Error` outcome
with `domain = email.split('@')[1] if '@' in email else ''` (the raw,
un-normalized email string is used here). -/
def handleFuture (work : String → Except String Outcome) (email : String) : Outcome :=
  match work email with
  | .ok r => r
  | .error e =>
    match pySplit '@' email.data with
    | _ :: d :: _ => ⟨email, String.mk d, "Error", "Processing error: " ++ e⟩
    | _ => ⟨email, "", "Error", "Processing error: " ++ e⟩

/-- `EmailValidator.validate_emails_batch` (lines 108-125).  One future is
submitted per element of `emails` (the dict `future_to_email` is keyed by
the distinct future objects, so duplicates in `emails` still give one
entry each); `as_completed` then yields every future exactly once, in an
arbitrary completion order, modelled as a list `order` of submission
indices (a permutation of `0, ..., emails.length - 1`).  `work` is the
unit of work run on the pool (`validate_single_email`, or any behaviour
including raising). -/
def validate_emails_batch (work : String → Except String Outcome)
    (order : List Nat) (emails : List String) : List Outcome :=
  (order.filterMap (fun i => emails.get? i)).map (handleFuture work)

/-! ## Concrete fixtures used by the witness theorems -/

/-- A network where the first host is unreachable, the second completes
the RCPT exchange with a 550 reply, and any later host would accept. -/
def netW1 : String → HostEvent := fun h =>
  if h = "h1" then .connectError
  else if h = "h2" then .session 250 550 "User unknown"
  else .session 250 250 "OK"

/-- A network where every connection attempt is refused. -/
def netW2 : String → HostEvent := fun _ => .connectError

/-- A resolver answering two MX records, already in preference order. -/
def resolveW : Option Nat → String → Except String (List MxRdata) :=
  fun _ _ => .ok [⟨5, "a."⟩, ⟨10, "b"⟩]

/-- A resolver whose answer depends on whether a lifetime argument is
passed: with one it answers nothing, without one it answers one record.
Used to exhibit that `get_mx_records` performs the lookup without the
configured timeout. -/
def timeoutSensitiveResolve : Option Nat → String → Except String (List MxRdata) :=
  fun lifetime _ =>
    match lifetime with
    | some _ => .ok []
    | none => .ok [⟨10, "mail.x.co."⟩]

/-- A resolver that always raises. -/
def resolveErr : Option Nat → String → Except String (List MxRdata) :=
  fun _ _ => .error "NXDOMAIN"

/-- A unit of work that raises on the candidate `"boom"` and succeeds on
every other candidate. -/
def workW : String → Except String Outcome :=
  fun e => if e = "boom" then .error "kaboom" else .ok ⟨e, "", "Valid", ""⟩

/-! ## Helper lemmas about the SMTP loop -/

theorem isContinue_of_transport {e : HostEvent} (h : isTransportFailure e = true) :
    isContinue e = true := by
  cases e <;> simp_all [isTransportFailure, isContinue]

theorem smtpLoop_cons_continue (net : String → HostEvent) (email : String)
    (host : String) (rest : List String) (h : isContinue (net host) = true) :
    smtpLoop net email (host :: rest) = smtpLoop net email rest := by
  cases hev : net host with
  | session m r s =>
    rw [hev] at h
    simp only [isContinue, bne_iff_ne, ne_eq] at h
    simp [smtpLoop, hev, h]
  | recipientsRefused =>
    rw [hev] at h
    simp [isContinue] at h
  | connectError => simp [smtpLoop, hev]
  | timeoutError => simp [smtpLoop, hev]
  | serverDisconnected => simp [smtpLoop, hev]
  | otherException => simp [smtpLoop, hev]

theorem smtpLoop_append_continue (net : String → HostEvent) (email : String)
    (pre l : List String) (h : ∀ x ∈ pre, isContinue (net x) = true) :
    smtpLoop net email (pre ++ l) = smtpLoop net email l := by
  induction pre with
  | nil => rfl
  | cons a t ih =>
    rw [List.cons_append, smtpLoop_cons_continue net email a (t ++ l) (h a (by simp))]
    exact ih (fun x hx => h x (by simp [hx]))

theorem smtpLoop_congr (net net' : String → HostEvent) (email : String)
    (l : List String) (h : ∀ x ∈ l, net' x = net x) :
    smtpLoop net' email l = smtpLoop net email l := by
  induction l with
  | nil => rfl
  | cons a t ih =>
    have ht : ∀ x ∈ t, net' x = net x := fun x hx => h x (List.mem_cons_of_mem _ hx)
    have ha := h a (List.mem_cons_self a t)
    cases hev : net a with
    | session m r s => simp [smtpLoop, ha, hev, ih ht]
    | recipientsRefused => simp [smtpLoop, ha, hev]
    | connectError => simp [smtpLoop, ha, hev, ih ht]
    | timeoutError => simp [smtpLoop, ha, hev, ih ht]
    | serverDisconnected => simp [smtpLoop, ha, hev, ih ht]
    | otherException => simp [smtpLoop, ha, hev, ih ht]

/-! ## C10: empty MX list guard -/

/-- C10: for every email and every possible network behaviour, calling
`validate_smtp` with an empty MX host list returns
`(False, "No MX records found")`; the result is the same for every `net`,
so no connection is attempted. -/
theorem smtp_empty_mx_guard (net : String → HostEvent) (email : String) :
    validate_smtp net email [] = (false, "No MX records found") := rfl

/-! ## C1: a completed RCPT exchange is interpreted terminally -/

/-- C1: whenever the first three hosts decompose as `pre ++ host :: post`
with every host of `pre` advancing the loop (transport failure or refused
MAIL) and `host` completing the recipient exchange with reply
`(c, msg)`, the probe's result is decided terminally by `c`:
250 (the success reply) gives accepted, 550 gives
`"Mailbox not found"`, 553 gives `"Invalid email format"`, and any other
code embeds the raw code and message in the reason; moreover the result
only depends on the events of `pre` and `host`, so no further host in the
list is attempted. -/
theorem smtp_rcpt_reply_terminal (net : String → HostEvent) (email : String)
    (hosts pre post : List String) (host : String) (c : Nat) (msg : String)
    (hsplit : hosts.take 3 = pre ++ host :: post)
    (hpre : ∀ x ∈ pre, isContinue (net x) = true)
    (hhost : net host = .session 250 c msg) :
    (validate_smtp net email hosts =
      if c = 250 then (true, "SMTP validation successful")
      else if c = 550 then (false, "Mailbox not found")
      else if c = 553 then (false, "Invalid email format")
      else (false, "SMTP error: " ++ toString c ++ " " ++ msg))
    ∧ ∀ net' : String → HostEvent,
        (∀ x ∈ pre, net' x = net x) → net' host = net host →
        validate_smtp net' email hosts = validate_smtp net email hosts := by
  have hne : hosts ≠ [] := by
    intro h0
    rw [h0] at hsplit
    simp at hsplit
  have key : ∀ n : String → HostEvent, (∀ x ∈ pre, isContinue (n x) = true) →
      n host = .session 250 c msg →
      validate_smtp n email hosts =
        (if c = 250 then (true, "SMTP validation successful")
         else if c = 550 then (false, "Mailbox not found")
         else if c = 553 then (false, "Invalid email format")
         else (false, "SMTP error: " ++ toString c ++ " " ++ msg)) := by
    intro n hn hhostn
    unfold validate_smtp
    rw [if_neg (by simp [List.isEmpty_iff, hne])]
    rw [hsplit, smtpLoop_append_continue n email pre _ hn]
    simp [smtpLoop, hhostn]
  refine ⟨key net hpre hhost, ?_⟩
  intro net' hpre' hhost'
  rw [key net hpre hhost,
    key net' (fun x hx => by rw [hpre' x hx]; exact hpre x hx)
      (by rw [hhost']; exact hhost)]

/-- C1 witness: on hosts `["h1", "h2", "h3"]` with `h1` unreachable and
`h2` answering 550 at RCPT, the probe stops at `h2` with
`"Mailbox not found"`. -/
theorem smtp_rcpt_reply_terminal_witness :
    (["h1", "h2", "h3"].take 3 = ["h1"] ++ "h2" :: ["h3"])
    ∧ (∀ x ∈ ["h1"], isContinue (netW1 x) = true)
    ∧ netW1 "h2" = .session 250 550 "User unknown"
    ∧ validate_smtp netW1 "u@e.co" ["h1", "h2", "h3"] = (false, "Mailbox not found") := by
  refine ⟨rfl, by decide, by decide, ?_⟩
  have h := (smtp_rcpt_reply_terminal netW1 "u@e.co" ["h1", "h2", "h3"] ["h1"] ["h3"]
    "h2" 550 "User unknown" rfl (by decide) (by decide)).1
  rw [h]
  decide

/-! ## C2: transport failures are not terminal -/

/-- C2: a transport-level failure on one host advances the loop to the
next host; the probe consults only the first 3 hosts (its result is
unchanged under any modification of the network beyond them); and if all
of the first 3 hosts fail at transport level, the result is
`(False, "Could not connect to any MX server")`. -/
theorem smtp_transport_failure_advances (net : String → HostEvent) (email : String)
    (hosts : List String) (host : String) (rest : List String)
    (hfail : isTransportFailure (net host) = true) :
    smtpLoop net email (host :: rest) = smtpLoop net email rest
    ∧ (∀ net' : String → HostEvent, (∀ x ∈ hosts.take 3, net' x = net x) →
        validate_smtp net' email hosts = validate_smtp net email hosts)
    ∧ (hosts ≠ [] → (∀ x ∈ hosts.take 3, isTransportFailure (net x) = true) →
        validate_smtp net email hosts = (false, "Could not connect to any MX server")) := by
  refine ⟨smtpLoop_cons_continue net email host rest (isContinue_of_transport hfail),
    ?_, ?_⟩
  · intro net' hag
    unfold validate_smtp
    by_cases he : hosts.isEmpty = true
    · rw [if_pos he, if_pos he]
    · rw [if_neg he, if_neg he, smtpLoop_congr net net' email _ hag]
  · intro hne hall
    unfold validate_smtp
    rw [if_neg (by simp [List.isEmpty_iff, hne])]
    have h2 := smtpLoop_append_continue net email (hosts.take 3) []
      (fun x hx => isContinue_of_transport (hall x hx))
    rw [List.append_nil] at h2
    rw [h2]
    rfl

/-- C2 witness: with both hosts refusing connections, the first failure
advances to the second host and the exhausted probe reports that no MX
server could be reached. -/
theorem smtp_transport_failure_advances_witness :
    isTransportFailure (netW2 "h1") = true
    ∧ smtpLoop netW2 "u@e.co" ["h1", "h2"] = smtpLoop netW2 "u@e.co" ["h2"]
    ∧ validate_smtp netW2 "u@e.co" ["h1", "h2"] = (false, "Could not connect to any MX server") := by
  have h := smtp_transport_failure_advances netW2 "u@e.co" ["h1", "h2"] "h1" ["h2"]
    (by decide)
  exact ⟨by decide, h.1, h.2.2 (by decide) (by decide)⟩

/-! ## C6: MX ordering -/

/-- C6: `get_mx_records` returns the resolver's records in the resolver's
own order, hostname-stringified with the trailing dot stripped (rank =
position); so when the resolver's answer is sorted by mail-exchanger
preference (lower value first, ties left in resolver order), the returned
hostname sequence is ordered by preference, and the "first 3 hosts"
policy probes the most-preferred exchangers.  That the live DNS library
reports records in preference order is a property of the external
resolver and is taken as the hypothesis `hsorted`. -/
theorem mx_records_preference_order
    (resolve : Option Nat → String → Except String (List MxRdata)) (timeout : Nat)
    (domain : String) (recs : List MxRdata)
    (hres : resolve none domain = .ok recs)
    (hsorted : recs.Pairwise (fun a b => a.preference ≤ b.preference)) :
    get_mx_records resolve timeout domain = recs.map (fun r => pyRstripDot r.exchange)
    ∧ (recs.map (fun r => r.preference)).Pairwise (· ≤ ·) := by
  constructor
  · unfold get_mx_records
    rw [hres]
  · exact List.pairwise_map.mpr hsorted

/-- C6 witness: a two-record answer sorted by preference comes back as
the two hostnames in the same order, dot-stripped. -/
theorem mx_records_preference_order_witness :
    resolveW none "x.co" = .ok [⟨5, "a."⟩, ⟨10, "b"⟩]
    ∧ get_mx_records resolveW 10 "x.co" = ["a", "b"]
    ∧ ([5, 10] : List Nat).Pairwise (· ≤ ·) := by
  have h := mx_records_preference_order resolveW 10 "x.co" [⟨5, "a."⟩, ⟨10, "b"⟩]
    rfl (by decide)
  refine ⟨rfl, ?_, by decide⟩
  rw [h.1]
  decide

/-! ## C7: the configured timeout is not applied to the DNS lookup -/

/-- C7 counterexample: `get_mx_records` calls the resolver with no
lifetime argument (`none`), so against a resolver whose behaviour depends
on the lifetime it was given, the result differs from what the same
resolver answers when the configured timeout (10) is actually passed:
the claim that the configured timeout bounds the MX lookup is false of
the code. -/
theorem mx_lookup_timeout_counterexample :
    get_mx_records timeoutSensitiveResolve 10 "x.co" = ["mail.x.co"]
    ∧ timeoutSensitiveResolve (some 10) "x.co" = .ok [] := by
  constructor
  · decide
  · rfl

/-- C7 amended: the MX lookup is performed without the configured
connection timeout — `get_mx_records` never passes it to the resolution
call, so its result is independent of the configured timeout value (the
lookup runs under the DNS library's own default time limit instead). -/
theorem mx_lookup_timeout_amended
    (resolve : Option Nat → String → Except String (List MxRdata))
    (t1 t2 : Nat) (domain : String) :
    get_mx_records resolve t1 domain = get_mx_records resolve t2 domain := rfl

/-! ## C8: resolution failures collapse to the empty list -/

/-- C8: every resolver error — the embedding of any raised exception:
nonexistent domain, no MX answer, lookup timeout, or anything else —
yields the empty list; `get_mx_records` is a total function and never
propagates the failure to its caller. -/
theorem mx_resolution_failure_empty
    (resolve : Option Nat → String → Except String (List MxRdata))
    (timeout : Nat) (domain : String) (err : String)
    (hres : resolve none domain = .error err) :
    get_mx_records resolve timeout domain = [] := by
  unfold get_mx_records
  rw [hres]

/-- C8 witness: a resolver raising `NXDOMAIN` yields the empty list. -/
theorem mx_resolution_failure_empty_witness :
    resolveErr none "nodomain.invalid" = .error "NXDOMAIN"
    ∧ get_mx_records resolveErr 10 "nodomain.invalid" = [] :=
  ⟨rfl, mx_resolution_failure_empty resolveErr 10 "nodomain.invalid" "NXDOMAIN" rfl⟩

/-! ## Helper lemmas about the batch orchestrator -/

theorem filterMap_get_length (emails : List String) (order : List Nat)
    (h : ∀ i ∈ order, i < emails.length) :
    (order.filterMap (fun i => emails.get? i)).length = order.length := by
  induction order with
  | nil => rfl
  | cons a t ih =>
    have ha : a < emails.length := h a (by simp)
    rw [List.filterMap_cons, List.get?_eq_get ha]
    simp only [List.length_cons]
    rw [ih (fun i hi => h i (by simp [hi]))]

theorem batch_length_of_perm (work : String → Except String Outcome)
    (order : List Nat) (emails : List String)
    (hperm : order.Perm (List.range emails.length)) :
    (validate_emails_batch work order emails).length = emails.length := by
  unfold validate_emails_batch
  rw [List.length_map,
    filterMap_get_length emails order
      (fun i hi => by simpa [List.mem_range] using hperm.mem_iff.mp hi),
    hperm.length_eq, List.length_range]

theorem batch_mem_of_lt (work : String → Except String Outcome)
    (order : List Nat) (emails : List String)
    (hperm : order.Perm (List.range emails.length))
    (j : Nat) (hj : j < emails.length) :
    handleFuture work (emails.get ⟨j, hj⟩) ∈ validate_emails_batch work order emails := by
  unfold validate_emails_batch
  apply List.mem_map_of_mem
  apply List.mem_filterMap.mpr
  exact ⟨j, hperm.mem_iff.mpr (by simp [List.mem_range, hj]), List.get?_eq_get hj⟩

/-! ## C3: batch cardinality -/

/-- C3: for every batch of `N` candidate strings, every unit-of-work
behaviour (including failing or raising ones) and every completion order
(any permutation of the `N` submitted futures), the batch yields exactly
`N` outcomes. -/
theorem batch_cardinality (work : String → Except String Outcome)
    (order : List Nat) (emails : List String)
    (hperm : order.Perm (List.range emails.length)) :
    (validate_emails_batch work order emails).length = emails.length :=
  batch_length_of_perm work order emails hperm

/-- C3 witness: a two-element batch completed in reverse order yields
exactly two outcomes. -/
theorem batch_cardinality_witness :
    ([1, 0].Perm (List.range 2))
    ∧ (validate_emails_batch (fun e => .ok ⟨e, "", "Invalid", "x"⟩)
        [1, 0] ["a", "b"]).length = 2 :=
  ⟨by decide, batch_cardinality (fun e => .ok ⟨e, "", "Invalid", "x"⟩) [1, 0]
    ["a", "b"] (by decide)⟩

/-! ## C4: faults are converted to Error outcomes and stay isolated -/

/-- C4: if the unit of work for the `i`-th candidate raises (is an
`Except.error`), the task boundary converts it into an outcome with
status `"Error"` and the non-empty reason `"Processing error: " ++ e`;
the batch still yields one outcome per candidate, and every candidate's
outcome (in particular every sibling's) appears in the batch output. -/
theorem batch_error_isolation (work : String → Except String Outcome)
    (order : List Nat) (emails : List String) (i : Nat) (e : String)
    (hi : i < emails.length)
    (hperm : order.Perm (List.range emails.length))
    (herr : work (emails.get ⟨i, hi⟩) = .error e) :
    ((handleFuture work (emails.get ⟨i, hi⟩)).status = "Error"
      ∧ (handleFuture work (emails.get ⟨i, hi⟩)).reason = "Processing error: " ++ e
      ∧ (handleFuture work (emails.get ⟨i, hi⟩)).reason ≠ "")
    ∧ (validate_emails_batch work order emails).length = emails.length
    ∧ (∀ j (hj : j < emails.length),
        handleFuture work (emails.get ⟨j, hj⟩) ∈ validate_emails_batch work order emails) := by
  have hstatus : (handleFuture work (emails.get ⟨i, hi⟩)).status = "Error" := by
    unfold handleFuture
    rw [herr]
    rcases pySplit '@' (emails.get ⟨i, hi⟩).data with _ | ⟨a, _ | ⟨b, t⟩⟩ <;> rfl
  have hreason : (handleFuture work (emails.get ⟨i, hi⟩)).reason = "Processing error: " ++ e := by
    unfold handleFuture
    rw [herr]
    rcases pySplit '@' (emails.get ⟨i, hi⟩).data with _ | ⟨a, _ | ⟨b, t⟩⟩ <;> rfl
  have hne : ("Processing error: " ++ e) ≠ "" := by
    intro hcon
    have hlen : ("Processing error: " ++ e).length = (0 : Nat) := by rw [hcon]; rfl
    rw [String.length_append] at hlen
    have h18 : "Processing error: ".length = 18 := rfl
    omega
  exact ⟨⟨hstatus, hreason, by rw [hreason]; exact hne⟩,
    batch_length_of_perm work order emails hperm,
    batch_mem_of_lt work order emails hperm⟩

/-- C4 witness: in the batch `["a", "boom"]` where the unit of work for
`"boom"` raises, the raising candidate still gets an `"Error"` outcome
with a non-empty reason, the batch yields two outcomes, and the sibling
`"a"` still produces its own outcome. -/
theorem batch_error_isolation_witness :
    workW "boom" = .error "kaboom"
    ∧ (handleFuture workW "boom").status = "Error"
    ∧ (handleFuture workW "boom").reason ≠ ""
    ∧ (validate_emails_batch workW [1, 0] ["a", "boom"]).length = 2
    ∧ handleFuture workW "a" ∈ validate_emails_batch workW [1, 0] ["a", "boom"] := by
  have h := batch_error_isolation workW [1, 0] ["a", "boom"] 1 "kaboom"
    (by decide) (by decide) rfl
  exact ⟨rfl, h.1.1, h.1.2.2, h.2.1, h.2.2 0 (by decide)⟩

/-! ## Helper lemmas about normalization -/

theorem head?_dropWhile_false (p : α → Bool) (l : List α) (c : α)
    (h : (l.dropWhile p).head? = some c) : p c = false := by
  have hd := List.head?_dropWhile_not p l
  rw [h] at hd
  exact hd

theorem dropWhile_eq_self_of_head (p : α → Bool) (l : List α)
    (h : ∀ c, l.head? = some c → p c = false) : l.dropWhile p = l := by
  cases l with
  | nil => rfl
  | cons a t =>
    have ha := h a rfl
    simp [List.dropWhile_cons, ha]

theorem dropWhile_dropWhile (p : α → Bool) (l : List α) :
    (l.dropWhile p).dropWhile p = l.dropWhile p :=
  dropWhile_eq_self_of_head p _ (fun c hc => head?_dropWhile_false p l c hc)

theorem stripList_idem (p : α → Bool) (l : List α) :
    stripList p (stripList p l) = stripList p l := by
  obtain ⟨s, hs⟩ := List.dropWhile_suffix (l := (l.dropWhile p).reverse) p
  have hx : l.dropWhile p = ((l.dropWhile p).reverse.dropWhile p).reverse ++ s.reverse := by
    have hr := congrArg List.reverse hs
    simpa [List.reverse_append] using hr.symm
  have h1 : (stripList p l).dropWhile p = stripList p l := by
    cases hyr : stripList p l with
    | nil => rfl
    | cons a t =>
      have hpa : p a = false := by
        apply head?_dropWhile_false p l
        unfold stripList at hyr
        rw [hx, hyr]
        rfl
      rw [List.dropWhile_cons_of_neg (by simp [hpa])]
  have h2 : (stripList p l).reverse.dropWhile p = (stripList p l).reverse := by
    have hrev : (stripList p l).reverse = (l.dropWhile p).reverse.dropWhile p := by
      unfold stripList
      rw [List.reverse_reverse]
    rw [hrev]
    exact dropWhile_dropWhile p _
  calc stripList p (stripList p l)
      = (((stripList p l).dropWhile p).reverse.dropWhile p).reverse := rfl
    _ = ((stripList p l).reverse.dropWhile p).reverse := by rw [h1]
    _ = (stripList p l).reverse.reverse := by rw [h2]
    _ = stripList p l := List.reverse_reverse _

theorem dropWhile_map_pres (p : α → Bool) (f : α → α) (hf : ∀ c, p (f c) = p c)
    (l : List α) : (l.map f).dropWhile p = (l.dropWhile p).map f := by
  have hpf : p ∘ f = p := funext hf
  rw [List.dropWhile_map, hpf]

theorem stripList_map_pres (p : α → Bool) (f : α → α) (hf : ∀ c, p (f c) = p c)
    (l : List α) : stripList p (l.map f) = (stripList p l).map f := by
  unfold stripList
  rw [dropWhile_map_pres p f hf, ← List.map_reverse, dropWhile_map_pres p f hf,
    ← List.map_reverse]

theorem isPySpace_pyLowerChar (c : Char) : isPySpace (pyLowerChar c) = isPySpace c := by
  unfold pyLowerChar
  split <;> rfl

theorem pyLowerChar_idem (c : Char) : pyLowerChar (pyLowerChar c) = pyLowerChar c := by
  have h : pyLowerChar c = c ∨ pyLowerChar (pyLowerChar c) = pyLowerChar c := by
    unfold pyLowerChar
    split <;> first | exact Or.inl rfl | exact Or.inr rfl
  rcases h with h | h
  · rw [h]
    exact h
  · exact h

theorem pyStrip_pyLower_comm (s : String) :
    pyStrip (pyLower s) = pyLower (pyStrip s) := by
  show String.mk (stripList isPySpace (s.data.map pyLowerChar))
      = String.mk ((stripList isPySpace s.data).map pyLowerChar)
  rw [stripList_map_pres isPySpace pyLowerChar isPySpace_pyLowerChar]

theorem pyStrip_idem (s : String) : pyStrip (pyStrip s) = pyStrip s := by
  show String.mk (stripList isPySpace (stripList isPySpace s.data))
      = String.mk (stripList isPySpace s.data)
  rw [stripList_idem]

theorem pyLower_idem (s : String) : pyLower (pyLower s) = pyLower s := by
  show String.mk ((s.data.map pyLowerChar).map pyLowerChar)
      = String.mk (s.data.map pyLowerChar)
  rw [List.map_map]
  have hpf : pyLowerChar ∘ pyLowerChar = pyLowerChar := funext pyLowerChar_idem
  rw [hpf]

/-- Normalization (`strip` then `lower`) is idempotent. -/
theorem norm_idem (s : String) :
    pyLower (pyStrip (pyLower (pyStrip s))) = pyLower (pyStrip s) := by
  rw [pyStrip_pyLower_comm, pyStrip_idem, pyLower_idem]

/-! ## C9: normalization idempotence of single-email validation -/

/-- C9: for every raw string `e` and every DNS/SMTP behaviour, validating
`e.strip().lower()` gives exactly the same outcome (all four fields,
including the normalized email field) as validating `e` itself. -/
theorem validate_normalization_idempotent (mx : String → List String)
    (net : String → HostEvent) (e : String) :
    validate_single_email mx net (pyLower (pyStrip e)) = validate_single_email mx net e := by
  unfold validate_single_email
  rw [norm_idem]

/-! ## Helper lemmas about the domain field -/

/-- The domain field of an outcome is always the second chunk of the
normalized email's split on `@` (empty when there is no second chunk). -/
theorem classify_domain_eq (mx : String → List String) (net : String → HostEvent)
    (email : String) :
    (classifyNormalized mx net email).domain =
      match (pySplit '@' email.data).get? 1 with
      | none => ""
      | some d => String.mk d := by
  unfold classifyNormalized
  cases hget : (pySplit '@' email.data).get? 1 with
  | none => rfl
  | some d =>
    dsimp only
    split
    · rfl
    · split
      · rfl
      · split <;> rfl

theorem classify_status_of_not_valid (mx : String → List String)
    (net : String → HostEvent) (email : String)
    (hsyn : is_valid_email_syntax email = false) :
    (classifyNormalized mx net email).status = "Invalid" := by
  unfold classifyNormalized
  cases hget : (pySplit '@' email.data).get? 1 with
  | none => rfl
  | some d =>
    dsimp only
    simp [hsyn]

/-- If the chunk after the first `@` is empty, the pattern cannot match:
either there is more than one `@` (no two-chunk split) or the domain side
is empty, and `domainPartOk []` is false. -/
theorem syntax_false_of_empty_second (email : String)
    (hstrip : pyStrip email = email)
    (hget : (pySplit '@' email.data).get? 1 = some []) :
    is_valid_email_syntax email = false := by
  unfold is_valid_email_syntax
  rw [hstrip]
  cases hp : pySplit '@' email.data with
  | nil => rfl
  | cons a t =>
    cases t with
    | nil => rfl
    | cons b t2 =>
      rw [hp] at hget
      have hb : b = [] := by simpa using hget
      subst hb
      cases t2 with
      | nil =>
        show ((!a.isEmpty && a.all localChar) && domainPartOk []) = false
        rw [show domainPartOk [] = false from rfl, Bool.and_false]
      | cons c t3 => rfl

/-! ## C5: when is the domain field empty? -/

/-- C5 counterexample: the raw input `"a@"` contains an `'@'` character,
yet its outcome has an empty domain field (Python's
`"a@".split('@')[1]` is `""`, not an `IndexError`), refuting the claimed
equivalence "domain is empty iff the input contains no '@'". -/
theorem domain_empty_counterexample :
    '@' ∈ "a@".data
    ∧ (validate_single_email (fun _ => []) (fun _ => .connectError) "a@").domain = "" := by
  constructor
  · decide
  · rfl

/-- C5 amended: the outcome's domain field is empty iff the normalized
(trimmed, lowercased) input either contains no `'@'` (no second chunk in
the split) or contains nothing between its first `'@'` and the following
`'@'`-or-end (an empty second chunk); and whenever the domain field is
empty the status is `"Invalid"`. -/
theorem domain_empty_iff_amended (mx : String → List String)
    (net : String → HostEvent) (e : String) :
    ((validate_single_email mx net e).domain = "" ↔
      ((pySplit '@' (pyLower (pyStrip e)).data).get? 1 = none
        ∨ (pySplit '@' (pyLower (pyStrip e)).data).get? 1 = some []))
    ∧ ((validate_single_email mx net e).domain = ""
        → (validate_single_email mx net e).status = "Invalid") := by
  have hstrip : pyStrip (pyLower (pyStrip e)) = pyLower (pyStrip e) := by
    rw [pyStrip_pyLower_comm, pyStrip_idem]
  unfold validate_single_email
  have hdom := classify_domain_eq mx net (pyLower (pyStrip e))
  cases hget : (pySplit '@' (pyLower (pyStrip e)).data).get? 1 with
  | none =>
    rw [hget] at hdom
    constructor
    · constructor
      · intro _
        exact Or.inl rfl
      · intro _
        rw [hdom]
    · intro _
      show (classifyNormalized mx net (pyLower (pyStrip e))).status = "Invalid"
      unfold classifyNormalized
      rw [hget]
  | some d =>
    rw [hget] at hdom
    by_cases hd : d = []
    · subst hd
      have hsyn := syntax_false_of_empty_second (pyLower (pyStrip e)) hstrip hget
      constructor
      · constructor
        · intro _
          exact Or.inr rfl
        · intro _
          rw [hdom]
      · intro _
        exact classify_status_of_not_valid mx net _ hsyn
    · constructor
      · rw [hdom]
        constructor
        · intro habs
          exact absurd (congrArg String.data habs) hd
        · intro habs
          rcases habs with h | h
          · exact Option.noConfusion h
          · exact absurd (Option.some.inj h) hd
      · intro habs
        rw [hdom] at habs
        exact absurd (congrArg String.data habs) hd

/-- C5 amended witness: at the concrete input `"a@"` the outcome has an
empty domain and Invalid status. -/
theorem domain_empty_iff_amended_witness :
    (validate_single_email (fun _ => []) (fun _ => .connectError) "a@").domain = ""
    ∧ (validate_single_email (fun _ => []) (fun _ => .connectError) "a@").status = "Invalid" := by
  have h := domain_empty_iff_amended (fun _ => []) (fun _ => .connectError) "a@"
  have hdom : (validate_single_email (fun _ => []) (fun _ => .connectError) "a@").domain = "" := rfl
  exact ⟨hdom, h.2 hdom⟩

end EmailValidation
